import Mathlib

/-!
Verification of the musicbrainzngs request-validation and rate-limiting layer
(`musicbrainzngs/musicbrainz.py`).

The Python module is shallowly embedded: pure validation helpers become Lean
functions returning `Except PyExc`, the rate limiter's mutable counters become
explicit state passing over `ℚ` (exact arithmetic idealizing the Python
floats), and the wall clock (`time.time()`) becomes an explicit list of clock
readings.  Definitions keep the source's names where Lean allows it.
-/

/-- Exceptions raised by `musicbrainz.py`, flattened into one inductive.
`valueError` and `keyError` model the Python builtins `ValueError` and
`KeyError`; `exception` models a bare `Exception`; the last four model the
module's own hierarchy `UsageError` and its subclasses `InvalidIncludeError`
(fields `msg`, `reason`), `InvalidFilterError` (callers only pass `msg`) and
`InvalidSearchFieldError`. -/
inductive PyExc where
  | valueError (msg : String)
  | keyError (key : String)
  | exception (msg : String)
  | usageError (msg : String)
  | invalidIncludeError (msg reason : String)
  | invalidFilterError (msg : String)
  | invalidSearchFieldError (msg : String)
deriving DecidableEq

/-- `isinstance(e, UsageError)`: true exactly for `UsageError` and its three
subclasses declared in the source; `ValueError`, `KeyError` and bare
`Exception` are builtins outside the module's hierarchy. -/
def PyExc.isUsageError : PyExc → Bool
  | .valueError _ => false
  | .keyError _ => false
  | .exception _ => false
  | .usageError _ => true
  | .invalidIncludeError _ _ => true
  | .invalidFilterError _ => true
  | .invalidSearchFieldError _ => true

instance {ε α : Type} [DecidableEq ε] [DecidableEq α] : DecidableEq (Except ε α)
  | .ok a, .ok b =>
    if h : a = b then .isTrue (by rw [h]) else .isFalse (by intro hc; cases hc; exact h rfl)
  | .ok _, .error _ => .isFalse (by intro hc; cases hc)
  | .error _, .ok _ => .isFalse (by intro hc; cases hc)
  | .error e, .error f =>
    if h : e = f then .isTrue (by rw [h]) else .isFalse (by intro hc; cases hc; exact h rfl)

-- Constants for validation (source lines 25-97).

def RELATABLE_TYPES : List String :=
  ["area", "artist", "label", "recording", "release", "release-group", "url", "work"]

def RELATION_INCLUDES : List String :=
  RELATABLE_TYPES.map (fun entity => entity ++ "-rels")

/-- The `VALID_INCLUDES` dict: entity kind to allowed include tokens, `none`
for a key not in the dict (a Python `KeyError` on lookup).  Transcribed
verbatim from the source; note which entries append `RELATION_INCLUDES` and
which do not. -/
def VALID_INCLUDES : String → Option (List String)
  | "artist" =>
    some (["recordings", "releases", "release-groups", "works",
           "various-artists", "discids", "media",
           "aliases", "tags", "user-tags", "ratings", "user-ratings",
           "annotation"] ++ RELATION_INCLUDES)
  | "annotation" => some []
  | "label" =>
    some (["releases",
           "discids", "media",
           "aliases", "tags", "user-tags", "ratings", "user-ratings",
           "annotation"] ++ RELATION_INCLUDES)
  | "recording" =>
    some (["artists", "releases",
           "discids", "media", "artist-credits",
           "tags", "user-tags", "ratings", "user-ratings",
           "annotation", "aliases"] ++ RELATION_INCLUDES)
  | "release" =>
    some (["artists", "labels", "recordings", "release-groups", "media",
           "artist-credits", "discids", "puids", "echoprints", "isrcs",
           "recording-level-rels", "work-level-rels", "annotation",
           "aliases"] ++ RELATION_INCLUDES)
  | "release-group" =>
    some (["artists", "releases", "discids", "media",
           "artist-credits", "tags", "user-tags", "ratings", "user-ratings",
           "annotation", "aliases"] ++ RELATION_INCLUDES)
  | "work" =>
    some (["artists",
           "aliases", "tags", "user-tags", "ratings", "user-ratings",
           "annotation"] ++ RELATION_INCLUDES)
  | "url" => some RELATION_INCLUDES
  | "discid" =>
    some (["artists", "labels", "recordings", "release-groups", "media",
           "artist-credits", "discids", "puids", "echoprints", "isrcs",
           "recording-level-rels", "work-level-rels"] ++ RELATION_INCLUDES)
  | "echoprint" => some ["artists", "releases"]
  | "puid" => some ["artists", "releases", "puids", "echoprints", "isrcs"]
  | "isrc" => some ["artists", "releases", "puids", "echoprints", "isrcs"]
  | "iswc" => some ["artists"]
  | "collection" => some ["releases"]
  | _ => none

/-- The keys of the `VALID_INCLUDES` dict, in source order. -/
def entityKinds : List String :=
  ["artist", "annotation", "label", "recording", "release", "release-group",
   "work", "url", "discid", "echoprint", "puid", "isrc", "iswc", "collection"]

/-- The entity kinds whose `VALID_INCLUDES` entry appends `RELATION_INCLUDES`. -/
def relIncludeKinds : List String :=
  ["artist", "label", "recording", "release", "release-group", "work", "url", "discid"]

/-- The allowed-include list for an entity kind (empty for unknown kinds;
only used at kinds in `entityKinds`, where the lookup is `some`). -/
def allowedIncludes (entity : String) : List String :=
  (VALID_INCLUDES entity).getD []

-- Helpers for validating and formatting allowed sets (source lines 202-212).

/-- `_check_includes_impl(includes, valid_includes)`: raise
`InvalidIncludeError("Bad includes", "%s is not a valid include" % i)` at the
first include not present in the valid list. -/
def _check_includes_impl (includes valid_includes : List String) : Except PyExc Unit :=
  match includes with
  | [] => Except.ok ()
  | i :: rest =>
    if i ∈ valid_includes then _check_includes_impl rest valid_includes
    else Except.error (.invalidIncludeError "Bad includes" (i ++ " is not a valid include"))

/-- `_check_includes(entity, inc)`: look the entity up in `VALID_INCLUDES`
(`KeyError` when absent) and check the includes against that list. -/
def _check_includes (entity : String) (inc : List String) : Except PyExc Unit :=
  match VALID_INCLUDES entity with
  | none => Except.error (.keyError entity)
  | some valid => _check_includes_impl inc valid

theorem check_includes_impl_singleton (t : String) (l : List String) :
    _check_includes_impl [t] l = Except.ok () ↔ t ∈ l := by
  by_cases h : t ∈ l <;> simp [_check_includes_impl, h]

/-- Claim C2 counterexample: `"artist-rels"` is a relation-include, yet
`_check_includes` rejects it for the entity kind `annotation` (whose
`VALID_INCLUDES` entry is the empty list, with no relation-includes appended),
so relation-includes are not legal for every entity kind. -/
theorem c2_counterexample :
    "artist-rels" ∈ RELATION_INCLUDES ∧
      _check_includes "annotation" ["artist-rels"] =
        Except.error (.invalidIncludeError "Bad includes"
          "artist-rels is not a valid include") := by
  constructor
  · decide
  · rfl

/-- Claim C2 (amended): for every entity kind `k` in the `VALID_INCLUDES`
table and every token `t`, `_check_includes(k, [t])` succeeds iff `t` is in
`VALID_INCLUDES[k]`; the relation-includes are contained in `VALID_INCLUDES[k]`
for the kinds artist, label, recording, release, release-group, work, url and
discid (but not for annotation, echoprint, puid, isrc, iswc, collection). -/
theorem c2_single_include_check :
    (∀ k ∈ entityKinds, ∀ t : String,
        (_check_includes k [t] = Except.ok () ↔ t ∈ allowedIncludes k)) ∧
    (∀ k ∈ relIncludeKinds, ∀ r ∈ RELATION_INCLUDES,
        _check_includes k [r] = Except.ok ()) := by
  constructor
  · intro k hk t
    fin_cases hk <;> apply check_includes_impl_singleton
  · decide

/-- Claim C2 witness: instantiates the amended claim at the kind `artist` and
the include `recordings`. -/
theorem c2_witness : _check_includes "artist" ["recordings"] = Except.ok () :=
  (c2_single_include_check.1 "artist" (by decide) "recordings").mpr (by decide)

-- Release filter validation (source lines 92-97, 209-241).

def VALID_RELEASE_TYPES : List String :=
  ["nat", "album", "single", "ep", "compilation", "soundtrack", "spokenword",
   "interview", "audiobook", "live", "remix", "other"]

def VALID_RELEASE_STATUSES : List String :=
  ["official", "promotion", "bootleg", "pseudo-release"]

/-- `_check_filter(values, valid)`: raise `InvalidFilterError(v)` at the first
value not in the valid enumeration. -/
def _check_filter (values valid : List String) : Except PyExc Unit :=
  match values with
  | [] => Except.ok ()
  | v :: rest =>
    if v ∈ valid then _check_filter rest valid
    else Except.error (.invalidFilterError v)

/-- Python `sep.join(l)` (used as `"|".join(...)`), computed by structural
recursion so it evaluates in the kernel. -/
def pyJoin (sep : String) : List String → String
  | [] => ""
  | [x] => x
  | x :: xs => x ++ sep ++ pyJoin sep xs

/-- The params dict built by `_check_filter_and_make_params`: at most the two
keys `status` and `type`, each present only when its value list is non-empty. -/
structure FilterParams where
  status : Option String
  type : Option String
deriving DecidableEq

/-- `_check_filter_and_make_params(entity, includes, release_status,
release_type)` after the string-to-list coercion (the coercion itself is
`_check_filter_and_make_params_dyn` below): check the status and type values,
then the filter/include compatibility rules, then build the params dict.
The second error message reproduces the source's missing space between the
two adjacent string literals. -/
def _check_filter_and_make_params (entity : String) (includes : List String)
    (release_status release_type : List String) : Except PyExc FilterParams :=
  match _check_filter release_status VALID_RELEASE_STATUSES with
  | Except.error e => Except.error e
  | Except.ok _ =>
    match _check_filter release_type VALID_RELEASE_TYPES with
    | Except.error e => Except.error e
    | Except.ok _ =>
      if release_status ≠ [] ∧ "releases" ∉ includes ∧ entity ≠ "release" then
        Except.error (.invalidFilterError "Can\x27t have a status with no release include")
      else if release_type ≠ [] ∧ "release-groups" ∉ includes ∧ "releases" ∉ includes ∧
          entity ∉ ["release-group", "release"] then
        Except.error (.invalidFilterError
          "Can\x27t have a release typewith no releases or release-groups involved")
      else
        Except.ok
          ⟨(if release_status = [] then none else some (pyJoin "|" release_status)),
           (if release_type = [] then none else some (pyJoin "|" release_type))⟩

/-- A Python argument that may be a single string (`isinstance(x, basestring)`)
or a list of strings. -/
inductive StrOrList where
  | str (s : String)
  | list (l : List String)

/-- The `isinstance(x, compat.basestring)` coercion at the top of
`_check_filter_and_make_params`: a bare string becomes a one-element list. -/
def coerceStr : StrOrList → List String
  | .str s => [s]
  | .list l => l

/-- `_check_filter_and_make_params` as callable from Python, with the dynamic
string-or-list arguments coerced before any validation. -/
def _check_filter_and_make_params_dyn (entity : String) (includes : List String)
    (release_status release_type : StrOrList) : Except PyExc FilterParams :=
  _check_filter_and_make_params entity includes
    (coerceStr release_status) (coerceStr release_type)

theorem check_filter_cases (values valid : List String) :
    (_check_filter values valid = Except.ok () ∧ ∀ v ∈ values, v ∈ valid) ∨
    ((∃ v ∈ values, v ∉ valid) ∧
      ∃ m, _check_filter values valid = Except.error (.invalidFilterError m)) := by
  induction values with
  | nil => exact Or.inl ⟨rfl, by simp⟩
  | cons v vs ih =>
    by_cases h : v ∈ valid
    · rcases ih with ⟨hok, hall⟩ | ⟨⟨w, hw, hwn⟩, m, hm⟩
      · refine Or.inl ⟨by simpa [_check_filter, h] using hok, ?_⟩
        intro x hx
        rcases List.mem_cons.mp hx with rfl | hx2
        · exact h
        · exact hall x hx2
      · exact Or.inr ⟨⟨w, List.mem_cons_of_mem _ hw, hwn⟩, m,
          by simpa [_check_filter, h] using hm⟩
    · exact Or.inr ⟨⟨v, List.mem_cons_self v vs, h⟩, v, by simp [_check_filter, h]⟩

/-- Claim C3: `_check_filter_and_make_params` raises `InvalidFilterError`
whenever a status value is outside `VALID_RELEASE_STATUSES`, a type value is
outside `VALID_RELEASE_TYPES`, a non-empty status list comes without a
`releases` include on a non-release entity, or a non-empty type list comes
without a `release-groups`/`releases` include on an entity that is neither
`release-group` nor `release`; otherwise it returns the params dict with
`status`/`type` joined by `"|"`, each key present only when its list is
non-empty. -/
theorem c3_filter_params_spec :
    ∀ (entity : String) (includes release_status release_type : List String),
      (((∃ v ∈ release_status, v ∉ VALID_RELEASE_STATUSES) ∨
        (∃ v ∈ release_type, v ∉ VALID_RELEASE_TYPES) ∨
        (release_status ≠ [] ∧ "releases" ∉ includes ∧ entity ≠ "release") ∨
        (release_type ≠ [] ∧ "release-groups" ∉ includes ∧ "releases" ∉ includes ∧
          entity ∉ ["release-group", "release"])) →
        ∃ m, _check_filter_and_make_params entity includes release_status release_type =
          Except.error (.invalidFilterError m)) ∧
      ((∀ v ∈ release_status, v ∈ VALID_RELEASE_STATUSES) →
       (∀ v ∈ release_type, v ∈ VALID_RELEASE_TYPES) →
       ¬(release_status ≠ [] ∧ "releases" ∉ includes ∧ entity ≠ "release") →
       ¬(release_type ≠ [] ∧ "release-groups" ∉ includes ∧ "releases" ∉ includes ∧
          entity ∉ ["release-group", "release"]) →
        _check_filter_and_make_params entity includes release_status release_type =
          Except.ok
            ⟨(if release_status = [] then none else some (pyJoin "|" release_status)),
             (if release_type = [] then none else some (pyJoin "|" release_type))⟩) := by
  intro entity includes rs rt
  rcases check_filter_cases rs VALID_RELEASE_STATUSES with
    ⟨hs, hsall⟩ | ⟨⟨v, hv, hvn⟩, m1, hm1⟩
  · rcases check_filter_cases rt VALID_RELEASE_TYPES with
      ⟨ht, htall⟩ | ⟨⟨w, hw, hwn⟩, m2, hm2⟩
    · constructor
      · intro hd
        by_cases hc1 : rs ≠ [] ∧ "releases" ∉ includes ∧ entity ≠ "release"
        · refine ⟨"Can\x27t have a status with no release include", ?_⟩
          simp only [_check_filter_and_make_params, hs, ht]
          rw [if_pos hc1]
        · by_cases hc2 : rt ≠ [] ∧ "release-groups" ∉ includes ∧ "releases" ∉ includes ∧
              entity ∉ ["release-group", "release"]
          · refine ⟨"Can\x27t have a release typewith no releases or release-groups involved", ?_⟩
            simp only [_check_filter_and_make_params, hs, ht]
            rw [if_neg hc1, if_pos hc2]
          · exfalso
            rcases hd with ⟨x, hx, hxn⟩ | ⟨x, hx, hxn⟩ | h3 | h4
            · exact hxn (hsall x hx)
            · exact hxn (htall x hx)
            · exact hc1 h3
            · exact hc2 h4
      · intro _ _ h3 h4
        simp only [_check_filter_and_make_params, hs, ht]
        rw [if_neg h3, if_neg h4]
    · constructor
      · intro _
        refine ⟨m2, ?_⟩
        simp only [_check_filter_and_make_params, hs, hm2]
      · intro _ h2 _ _
        exact absurd (h2 w hw) hwn
  · constructor
    · intro _
      refine ⟨m1, ?_⟩
      simp only [_check_filter_and_make_params, hm1]
    · intro h1 _ _ _
      exact absurd (h1 v hv) hvn

/-- Claim C3 witness: for entity `release` with no includes, status
`["official"]` and no type filter, the function succeeds and returns the
params dict with only the `status` key. -/
theorem c3_witness :
    _check_filter_and_make_params "release" [] ["official"] [] =
      Except.ok ⟨some "official", none⟩ := by
  have h := (c3_filter_params_spec "release" [] ["official"] []).2
    (by decide) (by decide) (by simp) (by simp)
  simpa using h

/-- Claim C10: passing a bare string as `release_status` or `release_type`
gives exactly the same result as passing the one-element list containing it,
because the function coerces the string to a list before any validation. -/
theorem c10_string_coercion :
    ∀ (entity : String) (includes : List String) (s : String) (x : StrOrList),
      (_check_filter_and_make_params_dyn entity includes (.str s) x =
        _check_filter_and_make_params_dyn entity includes (.list [s]) x) ∧
      (_check_filter_and_make_params_dyn entity includes x (.str s) =
        _check_filter_and_make_params_dyn entity includes x (.list [s])) :=
  fun _ _ _ _ => ⟨rfl, rfl⟩

-- Search query construction (source lines 98-136, 472-515).

/-- The `VALID_SEARCH_FIELDS` dict (`none` models a `KeyError` on lookup for
a missing entity).  The duplicated `creditname` in the `release` entry is in
the source. -/
def VALID_SEARCH_FIELDS : String → Option (List String)
  | "annotation" => some ["entity", "name", "text", "type"]
  | "artist" =>
    some ["arid", "artist", "artistaccent", "alias", "begin", "comment",
          "country", "end", "ended", "gender", "ipi", "sortname", "tag", "type"]
  | "label" =>
    some ["alias", "begin", "code", "comment", "country", "end", "ended",
          "ipi", "label", "labelaccent", "laid", "sortname", "type", "tag"]
  | "recording" =>
    some ["arid", "artist", "artistname", "creditname", "comment",
          "country", "date", "dur", "format", "isrc", "number",
          "position", "primarytype", "puid", "qdur", "recording",
          "recordingaccent", "reid", "release", "rgid", "rid",
          "secondarytype", "status", "tnum", "tracks", "tracksrelease",
          "tag", "type"]
  | "release-group" =>
    some ["arid", "artist", "artistname", "comment", "creditname",
          "primarytype", "rgid", "releasegroup", "releasegroupaccent",
          "releases", "release", "reid", "secondarytype", "status",
          "tag", "type"]
  | "release" =>
    some ["arid", "artist", "artistname", "asin", "barcode", "creditname",
          "catno", "comment", "country", "creditname", "date", "discids",
          "discidsmedium", "format", "laid", "label", "lang", "mediums",
          "primarytype", "puid", "reid", "release", "releaseaccent",
          "rgid", "script", "secondarytype", "status", "tag", "tracks",
          "tracksmedium", "type"]
  | "work" =>
    some ["alias", "arid", "artist", "comment", "iswc", "lang", "tag",
          "type", "wid", "work", "workaccent"]
  | _ => none

/-- The Lucene special characters of the free-text escape
`re.sub(r'([+\-&|!(){}\[\]\^"~*?:\\])', ...)`.  The braces are written with
hex escapes. -/
def luceneSpecials : List Char :=
  ['+', '-', '&', '|', '!', '(', ')', '\x7b', '\x7d', '[', ']', '^', '"',
   '~', '*', '?', ':', '\\']

/-- One character of the escape substitution: a special character (plus `/`
when `withSlash`, as in the field-value variant of the regex) is prefixed
with a backslash. -/
def escChar (withSlash : Bool) (c : Char) : List Char :=
  if c ∈ luceneSpecials ∨ (withSlash ∧ c = '/') then ['\\', c] else [c]

/-- The whole-string escape substitution, computed on the character list so
it evaluates in the kernel. -/
def luceneEscape (withSlash : Bool) (s : String) : String :=
  String.mk (s.data.foldr (fun c acc => escChar withSlash c ++ acc) [])

/-- Python `str.lower()`, modelled for ASCII text (`Char.toLower` lowercases
exactly the ASCII uppercase letters). -/
def pyLower (s : String) : String := String.mk (s.data.map Char.toLower)

/-- Python whitespace as stripped by `str.strip()` (ASCII set). -/
def isPySpace (c : Char) : Bool :=
  c = ' ' ∨ c = '\t' ∨ c = '\n' ∨ c = '\r' ∨ c = '\x0b' ∨ c = '\x0c'

def stripList (l : List Char) : List Char :=
  ((l.dropWhile isPySpace).reverse.dropWhile isPySpace).reverse

/-- Python `str.strip()` with no argument. -/
def pyStrip (s : String) : String := String.mk (stripList s.data)

/-- Modelled from the spec: `util._unicode` lives in `util.py`, which is not
part of the provided source.  The spec says the query text is passed through
"verbatim (still Unicode-normalized)", so on text that is already Unicode it
is the identity. -/
def pyUnicode (s : String) : String := s

/-- The field loop of `_do_mb_search` (source lines 493-508): validate each
field name against `VALID_SEARCH_FIELDS[entity]`, escape the value (with `/`
added to the special set), skip fields whose escaped value is empty, and emit
`key:"value"` when strict or `key:(value.lower())` otherwise, in iteration
order. -/
def _search_field_parts (entity : String) (strict : Bool) :
    List (String × String) → Except PyExc (List String)
  | [] => Except.ok []
  | (key, value) :: rest =>
    match VALID_SEARCH_FIELDS entity with
    | none => Except.error (.keyError entity)
    | some valid =>
      if key ∉ valid then
        Except.error (.invalidSearchFieldError
          (key ++ " is not a valid search field for " ++ entity))
      else
        match _search_field_parts entity strict rest with
        | Except.error e => Except.error e
        | Except.ok parts =>
          if luceneEscape true (pyUnicode value) ≠ "" then
            if strict then
              Except.ok ((key ++ ":\"" ++ luceneEscape true (pyUnicode value) ++ "\"") :: parts)
            else
              Except.ok ((key ++ ":(" ++ pyLower (luceneEscape true (pyUnicode value)) ++ ")") :: parts)
          else Except.ok parts

/-- The query-construction part of `_do_mb_search` (source lines 480-515),
up to and including the empty-query check; the resulting string is what the
function puts into the `query` request parameter. -/
def _do_mb_search_query (entity : String) (query : String)
    (fields : List (String × String)) (strict : Bool) : Except PyExc String :=
  let query_parts : List String :=
    if query ≠ "" then
      if fields ≠ [] then
        if strict then ["\"" ++ luceneEscape false (pyUnicode query) ++ "\""]
        else [pyLower (luceneEscape false (pyUnicode query))]
      else [pyUnicode query]
    else []
  match _search_field_parts entity strict fields with
  | Except.error e => Except.error e
  | Except.ok field_parts =>
    let full_query :=
      pyStrip (pyJoin (if strict then " AND " else " ") (query_parts ++ field_parts))
    if full_query = "" then
      Except.error (.valueError "at least one query term is required")
    else Except.ok full_query

theorem stripList_ne_nil {l : List Char} {c : Char}
    (hc : c ∈ l) (hcs : isPySpace c = false) : stripList l ≠ [] := by
  intro h
  unfold stripList at h
  rw [List.reverse_eq_nil_iff, List.dropWhile_eq_nil_iff] at h
  have hcd : c ∈ l.dropWhile isPySpace := by
    have hsplit := List.takeWhile_append_dropWhile (p := isPySpace) (l := l)
    rcases List.mem_append.mp (by rw [hsplit]; exact hc) with htk | hdr
    · exact absurd (List.mem_takeWhile_imp htk) (by simp [hcs])
    · exact hdr
  have := h c (List.mem_reverse.mpr hcd)
  rw [hcs] at this
  exact Bool.false_ne_true this

theorem pyStrip_ne_empty {s : String} {c : Char}
    (hc : c ∈ s.data) (hcs : isPySpace c = false) : pyStrip s ≠ "" := by
  intro h
  exact stripList_ne_nil hc hcs (congrArg String.data h)

/-- Claim C5 counterexample: in strict mode the field value is escaped before
being quoted, so `buildSearchQuery("", {artist: "Wow!"}, true)` yields
`artist:"Wow\!"`, not the claim's `artist:"Wow!"`. -/
theorem c5_counterexample :
    _do_mb_search_query "artist" "" [("artist", "Wow!")] true =
        Except.ok "artist:\"Wow\\!\"" ∧
      ("artist:\"Wow\\!\"" : String) ≠ "artist:\"Wow!\"" := by
  constructor
  · rfl
  · decide

/-- Claim C5 (amended): with no fields the free text is produced stripped of
leading/trailing whitespace (verbatim otherwise); a single valid field with a
non-empty escaped value produces `key:"escapedValue"` (case preserved) when
strict and `key:(lowercased escaped value)` when not, the whole query finally
stripped; and concretely `("foo bar", ∅, false) ↦ "foo bar"`,
`("", {artist: "Wow!"}, false) ↦ artist:(wow\!)` and
`("", {artist: "Wow!"}, true) ↦ artist:"Wow\!"` (the escaped form). -/
theorem c5_search_query_building :
    (∀ (entity : String) (strict : Bool) (q : String), q ≠ "" → pyStrip q ≠ "" →
        _do_mb_search_query entity q [] strict = Except.ok (pyStrip q)) ∧
    (∀ (entity key value : String) (valid : List String),
        VALID_SEARCH_FIELDS entity = some valid → key ∈ valid →
        luceneEscape true value ≠ "" →
        (_do_mb_search_query entity "" [(key, value)] true =
            Except.ok (pyStrip (key ++ ":\"" ++ luceneEscape true value ++ "\"")) ∧
          _do_mb_search_query entity "" [(key, value)] false =
            Except.ok (pyStrip (key ++ ":(" ++ pyLower (luceneEscape true value) ++ ")")))) ∧
    (_do_mb_search_query "artist" "foo bar" [] false = Except.ok "foo bar" ∧
      _do_mb_search_query "artist" "" [("artist", "Wow!")] false =
        Except.ok "artist:(wow\\!)" ∧
      _do_mb_search_query "artist" "" [("artist", "Wow!")] true =
        Except.ok "artist:\"Wow\\!\"") := by
  refine ⟨?_, ?_, ?_, ?_, ?_⟩
  · intro e strict q hq hs
    simp [_do_mb_search_query, _search_field_parts, pyUnicode, pyJoin, hq, hs]
  · intro e k v valid hvf hk hne
    have hmem1 : ':' ∈ (k ++ ":\"" ++ luceneEscape true v ++ "\"").data := by
      simp only [String.data_append, List.mem_append]
      exact Or.inl (Or.inl (Or.inr (by decide)))
    have hmem2 : ':' ∈ (k ++ ":(" ++ pyLower (luceneEscape true v) ++ ")").data := by
      simp only [String.data_append, List.mem_append]
      exact Or.inl (Or.inl (Or.inr (by decide)))
    have hns1 := pyStrip_ne_empty hmem1 (by decide)
    have hns2 := pyStrip_ne_empty hmem2 (by decide)
    constructor
    · simp [_do_mb_search_query, _search_field_parts, pyUnicode, pyJoin, hvf, hk, hne, hns1]
    · simp [_do_mb_search_query, _search_field_parts, pyUnicode, pyJoin, hvf, hk, hne, hns2]
  · rfl
  · rfl
  · rfl

/-- Claim C5 witness: instantiates the no-fields clause of the amended claim
at query `"foo"`. -/
theorem c5_witness :
    _do_mb_search_query "artist" "foo" [] false = Except.ok (pyStrip "foo") :=
  c5_search_query_building.1 "artist" false "foo" (by decide) (by decide)

theorem field_parts_all_empty (entity : String) (valid : List String) (strict : Bool)
    (hvf : VALID_SEARCH_FIELDS entity = some valid) :
    ∀ fields : List (String × String),
      (∀ kv ∈ fields, kv.1 ∈ valid ∧ kv.2 = "") →
      _search_field_parts entity strict fields = Except.ok [] := by
  intro fields
  induction fields with
  | nil => intro _; rfl
  | cons kv rest ih =>
    intro hall
    obtain ⟨hk, hv⟩ := hall kv (List.mem_cons_self kv rest)
    have hrest := ih (fun x hx => hall x (List.mem_cons_of_mem _ hx))
    obtain ⟨key, value⟩ := kv
    simp only at hk hv
    subst hv
    simp [_search_field_parts, hvf, hk, hrest, pyUnicode, luceneEscape]

/-- Claim C7 (amended): when the caller supplies neither free text (beyond
whitespace) nor any field producing a fragment, the joined query strips to
empty and `_do_mb_search` raises the builtin
`ValueError('at least one query term is required')` — which is not part of
the module's `UsageError` hierarchy. -/
theorem c7_empty_query_fails :
    (∀ (entity : String) (strict : Bool) (q : String), pyStrip q = "" →
        _do_mb_search_query entity q [] strict =
          Except.error (.valueError "at least one query term is required")) ∧
    (∀ (entity : String) (valid : List String) (strict : Bool)
        (fields : List (String × String)),
        VALID_SEARCH_FIELDS entity = some valid →
        (∀ kv ∈ fields, kv.1 ∈ valid ∧ kv.2 = "") →
        _do_mb_search_query entity "" fields strict =
          Except.error (.valueError "at least one query term is required")) ∧
    (PyExc.valueError "at least one query term is required").isUsageError = false := by
  refine ⟨?_, ?_, rfl⟩
  · intro e strict q hq
    by_cases h0 : q = ""
    · subst h0
      simp [_do_mb_search_query, _search_field_parts, pyJoin, pyStrip, stripList]
    · simp [_do_mb_search_query, _search_field_parts, pyUnicode, pyJoin, h0, hq]
  · intro e valid strict fields hvf hall
    have hfp := field_parts_all_empty e valid strict hvf fields hall
    simp [_do_mb_search_query, hfp, pyJoin, pyStrip, stripList]

/-- Claim C7 counterexample: the empty-query failure is a `ValueError`, which
is not a `UsageError` (the module's caller-misuse class). -/
theorem c7_counterexample :
    _do_mb_search_query "artist" "" [] false =
        Except.error (.valueError "at least one query term is required") ∧
      (PyExc.valueError "at least one query term is required").isUsageError = false := by
  exact ⟨rfl, rfl⟩

/-- Claim C7 witness: instantiates the amended claim at a whitespace-only
query with no fields. -/
theorem c7_witness :
    _do_mb_search_query "artist" " " [] true =
      Except.error (.valueError "at least one query term is required") :=
  c7_empty_query_fails.1 "artist" true " " (by decide)

-- Browse parameter building (source lines 77-89, 728-740).

/-- The `VALID_BROWSE_INCLUDES` dict (`none` for a missing key). -/
def VALID_BROWSE_INCLUDES : String → Option (List String)
  | "releases" =>
    some (["artist-credits", "labels", "recordings",
           "release-groups", "media", "discids"] ++ RELATION_INCLUDES)
  | "recordings" =>
    some (["artist-credits", "tags", "ratings", "user-tags",
           "user-ratings"] ++ RELATION_INCLUDES)
  | "labels" =>
    some (["aliases", "tags", "ratings",
           "user-tags", "user-ratings"] ++ RELATION_INCLUDES)
  | "artists" =>
    some (["aliases", "tags", "ratings",
           "user-tags", "user-ratings"] ++ RELATION_INCLUDES)
  | "urls" => some RELATION_INCLUDES
  | "release-groups" =>
    some (["artist-credits", "tags", "ratings",
           "user-tags", "user-ratings"] ++ RELATION_INCLUDES)
  | _ => none

/-- A value in the params dict of `_browse_impl`: the link ids are strings,
`limit`/`offset` are ints. -/
inductive ParamVal where
  | str (v : String)
  | nat (v : Nat)
deriving DecidableEq

/-- The loop `for k, v in params.items(): if v: p[k] = v` of `_browse_impl`:
keep the link parameters whose value is truthy (a non-empty string; `None`
and `""` are falsy), in iteration order. -/
def browseLinkParams (params : List (String × Option String)) : List (String × ParamVal) :=
  params.filterMap (fun kv =>
    match kv.2 with
    | some v => if v ≠ "" then some (kv.1, ParamVal.str v) else none
    | none => none)

/-- `_browse_impl` up to the point where `_do_mb_query` would be called with
the assembled params dict: check the includes, reject more than one truthy
link parameter with a bare `Exception`, append truthy `limit`/`offset`, then
merge the filter params.  The returned list is the params dict in insertion
order. -/
def _browse_impl (entity : String) (includes valid_includes : List String)
    (limit offset : Option Nat) (params : List (String × Option String))
    (release_status release_type : List String) :
    Except PyExc (List (String × ParamVal)) :=
  match _check_includes_impl includes valid_includes with
  | Except.error e => Except.error e
  | Except.ok _ =>
    let p := browseLinkParams params
    if p.length > 1 then
      Except.error (.exception ("Can\x27t have more than one of " ++
        pyJoin ", " (params.map Prod.fst)))
    else
      let p := p ++ (match limit with
        | some n => if n ≠ 0 then [("limit", ParamVal.nat n)] else []
        | none => []) ++ (match offset with
        | some n => if n ≠ 0 then [("offset", ParamVal.nat n)] else []
        | none => [])
      match _check_filter_and_make_params entity includes release_status release_type with
      | Except.error e => Except.error e
      | Except.ok filterp =>
        Except.ok (p ++ (match filterp.status with
          | some v => [("status", ParamVal.str v)]
          | none => []) ++ (match filterp.type with
          | some v => [("type", ParamVal.str v)]
          | none => []))

/-- Claim C6 counterexample: the `browse_artists(recording=…, release=…)`
call shape — two non-empty link parameters — fails, but with a bare Python
`Exception`, which is not a `UsageError`. -/
theorem c6_counterexample :
    _browse_impl "artist" [] ((VALID_BROWSE_INCLUDES "artists").getD []) none none
        [("recording", some "x"), ("release", some "y"), ("release-group", none)]
        [] [] =
      Except.error (.exception
        "Can\x27t have more than one of recording, release, release-group") ∧
    (PyExc.exception
        "Can\x27t have more than one of recording, release, release-group").isUsageError
      = false := by
  exact ⟨rfl, rfl⟩

/-- Claim C6 (amended): when more than one link parameter is non-empty,
`_browse_impl` fails before the query is built — but with a bare `Exception`
naming all the link keys, not with a `UsageError`; and supplying zero
non-empty link parameters is not rejected (with empty filters the call
succeeds). -/
theorem c6_browse_exclusive_links :
    (∀ (entity : String) (includes valid_includes : List String)
        (limit offset : Option Nat) (params : List (String × Option String))
        (release_status release_type : List String),
        _check_includes_impl includes valid_includes = Except.ok () →
        1 < (browseLinkParams params).length →
        (_browse_impl entity includes valid_includes limit offset params
            release_status release_type =
          Except.error (.exception ("Can\x27t have more than one of " ++
            pyJoin ", " (params.map Prod.fst))) ∧
         ∀ m, (PyExc.exception m).isUsageError = false)) ∧
    (∀ (entity : String) (includes valid_includes : List String)
        (limit offset : Option Nat) (params : List (String × Option String)),
        _check_includes_impl includes valid_includes = Except.ok () →
        (browseLinkParams params).length ≤ 1 →
        ∃ ps, _browse_impl entity includes valid_includes limit offset params [] [] =
          Except.ok ps) := by
  constructor
  · intro entity includes valid limit offset params rs rt h1 h2
    refine ⟨?_, fun _ => rfl⟩
    simp only [_browse_impl, h1]
    rw [if_pos h2]
  · intro entity includes valid limit offset params h1 hle
    have hf : _check_filter_and_make_params entity includes [] [] =
        Except.ok ⟨none, none⟩ := by
      simp [_check_filter_and_make_params, _check_filter]
    apply Exists.intro
    simp only [_browse_impl, h1, hf]
    rw [if_neg (not_lt.mpr hle)]

/-- Claim C6 witness: instantiates the amended claim at the concrete
two-link-parameter input. -/
theorem c6_witness :
    _browse_impl "artist" [] [] none none
        [("recording", some "x"), ("release", some "y")] [] [] =
      Except.error (.exception "Can\x27t have more than one of recording, release") := by
  have h := (c6_browse_exclusive_links.1 "artist" [] [] none none
    [("recording", some "x"), ("release", some "y")] [] [] rfl (by decide)).1
  exact h.trans (by decide)

-- Rate limiting (source lines 293-364, 376-392).

/-- Python `min(a, b)` on numbers (returns the first argument on ties). -/
def ratMin (a b : ℚ) : ℚ := if a ≤ b then a else b

/-- The module-level rate configuration: `limit_requests` (`maxReq`) and
`limit_interval` (`interval`). -/
structure RLConfig where
  maxReq : ℚ
  interval : ℚ
deriving DecidableEq

/-- The per-instance state of `_rate_limit`: `remaining_requests` (which is
`None` until the first invocation) and `last_call` (initialized to `0.0`). -/
structure RLState where
  remaining : Option ℚ
  lastCall : ℚ
deriving DecidableEq

/-- `_rate_limit._update_remaining` at clock reading `now`: on first
invocation set `remaining_requests = limit_requests`; otherwise add
`elapsed * (limit_requests / limit_interval)` and clamp at `limit_requests`;
in both cases set `last_call = now`.  (The source reads `time.time()` twice
in the else-branch; a single `now` per update abstracts that.) -/
def updateRemaining (cfg : RLConfig) (s : RLState) (now : ℚ) : RLState :=
  match s.remaining with
  | none => ⟨some cfg.maxReq, now⟩
  | some r =>
    ⟨some (ratMin (r + (now - s.lastCall) * (cfg.maxReq / cfg.interval)) cfg.maxReq), now⟩

/-- The sleep duration computed by the source's delay loop:
`(1.0 - remaining_requests) * (limit_requests / limit_interval)`. -/
def sleepDuration (cfg : RLConfig) (r : ℚ) : ℚ :=
  (1 - r) * (cfg.maxReq / cfg.interval)

/-- Modelled from the spec: the sleep duration the specification prescribes,
`(1.0 - availableTokens) * (interval / maxRequests)` — the time actually
needed to accrue the missing tokens at refill rate `maxRequests/interval`. -/
def sleepDurationSpec (cfg : RLConfig) (r : ℚ) : ℚ :=
  (1 - r) * (cfg.interval / cfg.maxReq)

/-- The `while self.remaining_requests < 0.999` delay loop of
`_rate_limit.__call__`, followed by the final debit `remaining -= 1.0`.
Each loop iteration consumes the next clock reading for its refill; the
returned list records the sleep durations requested.  `none` means the
supplied clock readings were exhausted before the loop exited. -/
def admitLoop (cfg : RLConfig) (s : RLState) : List ℚ → Option (RLState × List ℚ)
  | [] =>
    match s.remaining with
    | none => none
    | some r =>
      if 999/1000 ≤ r then some (⟨some (r - 1), s.lastCall⟩, []) else none
  | n :: rest =>
    match s.remaining with
    | none => none
    | some r =>
      if 999/1000 ≤ r then some (⟨some (r - 1), s.lastCall⟩, [])
      else
        (admitLoop cfg (updateRemaining cfg s n) rest).map
          (fun p => (p.1, sleepDuration cfg r :: p.2))

/-- One admission through `_rate_limit.__call__` with rate limiting enabled:
the initial `_update_remaining` at the first clock reading, then the delay
loop and the debit. -/
def admitOnce (cfg : RLConfig) (s : RLState) : List ℚ → Option (RLState × List ℚ)
  | [] => none
  | n :: rest => admitLoop cfg (updateRemaining cfg s n) rest

/-- A sequence of admissions, each with its own clock readings, threading the
limiter state. -/
def runSeq (cfg : RLConfig) (s : RLState) : List (List ℚ) → Option RLState
  | [] => some s
  | ns :: rest =>
    match admitOnce cfg s ns with
    | none => none
    | some p => runSeq cfg p.1 rest

/-- The `if do_rate_limit:` guard of `_rate_limit.__call__`: when rate
limiting is disabled the accounting (and any sleeping) is skipped entirely
and the wrapped call proceeds at once. -/
def limiterGate (do_rate_limit : Bool) (cfg : RLConfig) (s : RLState)
    (nows : List ℚ) : Option (RLState × List ℚ) :=
  if do_rate_limit then admitOnce cfg s nows else some (s, [])

/-- The message of the `UsageError` raised by `_mb_request` when the
user-agent is unset (the source's two adjacent string literals concatenated). -/
def userAgentErrorMsg : String :=
  "set a proper user-agent with set_useragent(\"application name\", \"application version\", \"contact info (preferably URL or email for your application)\")"

/-- The validation prologue of `_mb_request`: raise `UsageError` when the
module-level `_useragent` is the empty string.  `ok ()` means the checks
passed and the transport would now be invoked. -/
def mbRequestValidate (useragent : String) : Except PyExc Unit :=
  if useragent = "" then Except.error (.usageError userAgentErrorMsg) else Except.ok ()

/-- `_mb_request` as wrapped by the `@_rate_limit` decorator: the limiter
admission runs first (updating the limiter state and possibly sleeping), and
only then does the function body check the user-agent.  The result triple is
(final limiter state, sleeps, validation outcome). -/
def rateLimitedMbRequest (do_rate_limit : Bool) (cfg : RLConfig) (s : RLState)
    (nows : List ℚ) (useragent : String) :
    Option (RLState × List ℚ × Except PyExc Unit) :=
  (limiterGate do_rate_limit cfg s nows).map
    (fun p => (p.1, p.2, mbRequestValidate useragent))

/-- The (corrected) state invariant of the limiter: whenever the token count
has been initialized it lies in `[-0.001, maxRequests]`. -/
def RLInv (cfg : RLConfig) (s : RLState) : Prop :=
  ∀ r, s.remaining = some r → -(1/1000) ≤ r ∧ r ≤ cfg.maxReq

theorem updateRemaining_lastCall (cfg : RLConfig) (s : RLState) (now : ℚ) :
    (updateRemaining cfg s now).lastCall = now := by
  cases h : s.remaining <;> simp [updateRemaining, h]

theorem updateRemaining_inv (cfg : RLConfig) (s : RLState) (now : ℚ)
    (hmax : 999/1000 ≤ cfg.maxReq) (hint : 0 < cfg.interval)
    (hnow : s.lastCall ≤ now) (hs : RLInv cfg s) :
    RLInv cfg (updateRemaining cfg s now) := by
  intro x hx
  cases h : s.remaining with
  | none =>
    simp [updateRemaining, h] at hx
    subst hx
    constructor <;> linarith
  | some q =>
    obtain ⟨hq1, hq2⟩ := hs q h
    simp [updateRemaining, h] at hx
    subst hx
    have hd : 0 ≤ (now - s.lastCall) * (cfg.maxReq / cfg.interval) :=
      mul_nonneg (by linarith) (div_nonneg (by linarith) (le_of_lt hint))
    refine ⟨?_, ?_⟩ <;> unfold ratMin <;> split <;> linarith

theorem admitLoop_inv (cfg : RLConfig) (hmax : 999/1000 ≤ cfg.maxReq)
    (hint : 0 < cfg.interval) :
    ∀ (nows : List ℚ) (s s' : RLState) (sl : List ℚ),
      RLInv cfg s → List.Sorted (· ≤ ·) (s.lastCall :: nows) →
      admitLoop cfg s nows = some (s', sl) →
      RLInv cfg s' ∧ s'.lastCall ∈ s.lastCall :: nows := by
  intro nows
  induction nows with
  | nil =>
    intro s s' sl hs _ h
    cases hrem : s.remaining with
    | none => simp [admitLoop, hrem] at h
    | some r =>
      obtain ⟨hr1, hr2⟩ := hs r hrem
      by_cases hge : (999 : ℚ)/1000 ≤ r
      · have heval : admitLoop cfg s [] = some (⟨some (r - 1), s.lastCall⟩, []) := by
          simp [admitLoop, hrem, hge]
        rw [heval, Option.some.injEq, Prod.mk.injEq] at h
        obtain ⟨h1, h2⟩ := h
        subst h1
        refine ⟨?_, by simp⟩
        intro x hx
        simp only [Option.some.injEq] at hx
        subst hx
        constructor <;> linarith
      · simp [admitLoop, hrem, hge] at h
  | cons n rest ih =>
    intro s s' sl hs hsort h
    cases hrem : s.remaining with
    | none => simp [admitLoop, hrem] at h
    | some r =>
      obtain ⟨hr1, hr2⟩ := hs r hrem
      by_cases hge : (999 : ℚ)/1000 ≤ r
      · have heval : admitLoop cfg s (n :: rest) = some (⟨some (r - 1), s.lastCall⟩, []) := by
          simp [admitLoop, hrem, hge]
        rw [heval, Option.some.injEq, Prod.mk.injEq] at h
        obtain ⟨h1, h2⟩ := h
        subst h1
        refine ⟨?_, by simp⟩
        intro x hx
        simp only [Option.some.injEq] at hx
        subst hx
        constructor <;> linarith
      · have heval : admitLoop cfg s (n :: rest) =
            (admitLoop cfg (updateRemaining cfg s n) rest).map
              (fun p => (p.1, sleepDuration cfg r :: p.2)) := by
          simp [admitLoop, hrem, hge]
        rw [heval] at h
        obtain ⟨p, hp, hmap⟩ := Option.map_eq_some'.mp h
        have hlast : s.lastCall ≤ n := (List.sorted_cons.mp hsort).1 n (by simp)
        have hsort' : List.Sorted (· ≤ ·) ((updateRemaining cfg s n).lastCall :: rest) := by
          rw [updateRemaining_lastCall]
          exact (List.sorted_cons.mp hsort).2
        have hinv' := updateRemaining_inv cfg s n hmax hint hlast hs
        obtain ⟨ha, hb⟩ := ih (updateRemaining cfg s n) p.1 p.2 hinv' hsort' (by rw [hp])
        rw [Prod.mk.injEq] at hmap
        obtain ⟨hm1, hm2⟩ := hmap
        subst hm1
        refine ⟨ha, ?_⟩
        rw [updateRemaining_lastCall] at hb
        exact List.mem_cons_of_mem _ hb

theorem admitOnce_inv (cfg : RLConfig) (hmax : 999/1000 ≤ cfg.maxReq)
    (hint : 0 < cfg.interval) :
    ∀ (nows : List ℚ) (s s' : RLState) (sl : List ℚ),
      RLInv cfg s → List.Sorted (· ≤ ·) (s.lastCall :: nows) →
      admitOnce cfg s nows = some (s', sl) →
      RLInv cfg s' ∧ s'.lastCall ∈ s.lastCall :: nows := by
  intro nows s s' sl hs hsort h
  cases nows with
  | nil => simp [admitOnce] at h
  | cons n rest =>
    simp only [admitOnce] at h
    have hlast : s.lastCall ≤ n := (List.sorted_cons.mp hsort).1 n (by simp)
    have hinv' := updateRemaining_inv cfg s n hmax hint hlast hs
    have hsort' : List.Sorted (· ≤ ·) ((updateRemaining cfg s n).lastCall :: rest) := by
      rw [updateRemaining_lastCall]
      exact (List.sorted_cons.mp hsort).2
    obtain ⟨h1, h2⟩ := admitLoop_inv cfg hmax hint rest (updateRemaining cfg s n) s' sl
      hinv' hsort' h
    refine ⟨h1, ?_⟩
    rw [updateRemaining_lastCall] at h2
    exact List.mem_cons_of_mem _ h2

theorem sorted_cons_of_mem_prefix {x a : ℚ} {l₁ l₂ : List ℚ}
    (hs : List.Sorted (· ≤ ·) (a :: l₁ ++ l₂)) (hx : x ∈ a :: l₁) :
    List.Sorted (· ≤ ·) (x :: l₂) := by
  have hs' := List.sorted_cons.mp hs
  rw [List.sorted_cons]
  constructor
  · intro b hb
    rcases List.mem_cons.mp hx with rfl | hx1
    · exact hs'.1 b (List.mem_append_right _ hb)
    · exact (List.pairwise_append.mp hs'.2).2.2 x hx1 b hb
  · exact (List.pairwise_append.mp hs'.2).2.1

theorem runSeq_inv (cfg : RLConfig) (hmax : 999/1000 ≤ cfg.maxReq)
    (hint : 0 < cfg.interval) :
    ∀ (nss : List (List ℚ)) (s s' : RLState),
      RLInv cfg s → List.Sorted (· ≤ ·) (s.lastCall :: nss.flatten) →
      runSeq cfg s nss = some s' →
      RLInv cfg s' ∧ s'.lastCall ∈ s.lastCall :: nss.flatten := by
  intro nss
  induction nss with
  | nil =>
    intro s s' hs _ h
    simp only [runSeq, Option.some.injEq] at h
    subst h
    exact ⟨hs, by simp⟩
  | cons ns rest ih =>
    intro s s' hs hsort h
    cases ha : admitOnce cfg s ns with
    | none => simp [runSeq, ha] at h
    | some p =>
      have h' : runSeq cfg p.1 rest = some s' := by
        simpa [runSeq, ha] using h
      rw [List.flatten_cons] at hsort
      have hsort1 : List.Sorted (· ≤ ·) (s.lastCall :: ns) :=
        hsort.sublist (List.cons_sublist_cons.mpr (List.sublist_append_left _ _))
      obtain ⟨hp1, hp2⟩ := admitOnce_inv cfg hmax hint ns s p.1 p.2 hs hsort1 (by rw [ha])
      have hsort2 : List.Sorted (· ≤ ·) (p.1.lastCall :: rest.flatten) :=
        sorted_cons_of_mem_prefix hsort hp2
      obtain ⟨hq1, hq2⟩ := ih p.1 s' hp1 hsort2 h'
      refine ⟨hq1, ?_⟩
      rw [List.flatten_cons]
      rcases List.mem_cons.mp hq2 with he | hm
      · rw [he]
        rcases List.mem_cons.mp hp2 with h1 | h2
        · simp [h1]
        · exact List.mem_cons_of_mem _ (List.mem_append_left _ h2)
      · exact List.mem_cons_of_mem _ (List.mem_append_right _ hm)

/-- Claim C1: the refill-then-debit structure matches the spec, but the sleep
duration does not: with `maxRequests = 1`, `interval = 10` and an exhausted
budget (`availableTokens = 0`), the code requests a sleep of
`(1 - 0) * (maxRequests / interval) = 0.1` seconds, while the specified
duration `(1 - 0) * (interval / maxRequests)` is `10` seconds — the code
multiplies by the reciprocal of the specified factor. -/
theorem c1_sleep_duration_bug :
    admitOnce ⟨1, 10⟩ ⟨some 0, 0⟩ [0, 10] = some (⟨some 0, 10⟩, [1/10]) ∧
    sleepDuration ⟨1, 10⟩ 0 = 1/10 ∧
    sleepDurationSpec ⟨1, 10⟩ 0 = 10 ∧
    sleepDuration ⟨1, 10⟩ 0 ≠ sleepDurationSpec ⟨1, 10⟩ 0 := by
  refine ⟨?_, ?_, ?_, ?_⟩ <;>
    norm_num [admitOnce, admitLoop, updateRemaining, ratMin, sleepDuration,
      sleepDurationSpec]

/-- Claim C4 counterexample: with `maxRequests = 1`, `interval = 1`, a first
admission at time 0 and a second at time 0.999, the refill brings the budget
to exactly 0.999, the delay loop exits (`0.999 < 0.999` is false), and the
debit leaves `remaining_requests = -0.001 < 0`, violating the claimed lower
bound 0. -/
theorem c4_counterexample :
    runSeq ⟨1, 1⟩ ⟨none, 0⟩ [[0], [999/1000]] =
        some ⟨some (-(1/1000)), 999/1000⟩ ∧
      (-(1/1000) : ℚ) < 0 := by
  constructor
  · norm_num [runSeq, admitOnce, admitLoop, updateRemaining, ratMin]
  · norm_num

/-- Claim C4 (amended): for every sequence of admissions of a fresh limiter
instance (with positive interval, `maxRequests ≥ 0.999`, and nondecreasing
nonnegative clock readings), the token count lies in
`[-0.001, maxRequests]` at every observation point — the debit can leave it
as low as `-0.001`, but never lower, and the refill clamp keeps it at or
below `maxRequests`. -/
theorem c4_tokens_bounded :
    ∀ (cfg : RLConfig) (admissionClocks : List (List ℚ)) (s' : RLState) (r : ℚ),
      999/1000 ≤ cfg.maxReq → 0 < cfg.interval →
      List.Sorted (· ≤ ·) ((0 : ℚ) :: admissionClocks.flatten) →
      runSeq cfg ⟨none, 0⟩ admissionClocks = some s' →
      s'.remaining = some r →
      -(1/1000) ≤ r ∧ r ≤ cfg.maxReq := by
  intro cfg nss s' r hmax hint hsort hrun hr
  have hinit : RLInv cfg ⟨none, 0⟩ := by
    intro x hx
    simp at hx
  exact (runSeq_inv cfg hmax hint nss ⟨none, 0⟩ s' hinit hsort hrun).1 r hr

/-- Claim C4 witness: instantiates the amended claim at a single admission of
a fresh limiter with `maxRequests = 1`, `interval = 1`, clock reading 0. -/
theorem c4_witness : -(1/1000 : ℚ) ≤ 0 ∧ (0 : ℚ) ≤ 1 := by
  have hrun : runSeq ⟨1, 1⟩ ⟨none, 0⟩ [[0]] = some ⟨some 0, 0⟩ := by
    norm_num [runSeq, admitOnce, admitLoop, updateRemaining, ratMin]
  exact c4_tokens_bounded ⟨1, 1⟩ [[0]] ⟨some 0, 0⟩ 0 (by norm_num) (by norm_num)
    (by simp) hrun rfl

/-- Claim C8 counterexample: with the user-agent unset, a query through the
rate-limited `_mb_request` does fail with a `UsageError` before the transport
is invoked, but not with zero side effects — the admission passes through the
rate limiter first, so the limiter state changes (here from uninitialized to
`remaining = 0` after init-to-1 and debit). -/
theorem c8_counterexample :
    rateLimitedMbRequest true ⟨1, 1⟩ ⟨none, 0⟩ [0] "" =
        some (⟨some 0, 0⟩, [], Except.error (.usageError userAgentErrorMsg)) ∧
      (⟨some 0, 0⟩ : RLState) ≠ ⟨none, 0⟩ := by
  constructor
  · norm_num [rateLimitedMbRequest, limiterGate, mbRequestValidate, admitOnce,
      admitLoop, updateRemaining, ratMin]
  · simp

/-- Claim C8 (amended): with the client identity unset, every query fails
with a `UsageError` before the transport is invoked (the validation result is
an error, so no transport call is modelled), but the failure is not free of
side effects: the `@_rate_limit` decorator runs first, so the limiter state
advances exactly as for a successful admission (refill, possible sleeps, and
the 1.0 debit). -/
theorem c8_useragent_check_after_rate_gate :
    (∀ (cfg : RLConfig) (s : RLState) (nows : List ℚ),
        rateLimitedMbRequest true cfg s nows "" =
          (admitOnce cfg s nows).map
            (fun p => (p.1, p.2, Except.error (.usageError userAgentErrorMsg)))) ∧
    (PyExc.usageError userAgentErrorMsg).isUsageError = true := by
  constructor
  · intro cfg s nows
    cases h : admitOnce cfg s nows <;>
      simp [rateLimitedMbRequest, limiterGate, mbRequestValidate, h]
  · rfl

/-- Claim C9: with rate limiting disabled, every admission proceeds
immediately — no sleeps are requested regardless of the supplied clock
readings — and the limiter's token-accounting state is returned unchanged. -/
theorem c9_disabled_limiter_identity :
    ∀ (cfg : RLConfig) (s : RLState) (nows : List ℚ),
      limiterGate false cfg s nows = some (s, []) :=
  fun _ _ _ => rfl
